import Mathlib

/-!
Verification of the `stitch` OAuth2/PKCE client (src/stitch/__init__.py)
against its natural-language specification.

The Python code is shallowly embedded: timestamps (`time.time()` floats)
become rationals `ℚ`, byte strings become `List Nat`, dict-based stores
become functions `User → Option _`, network I/O becomes an explicit oracle
argument (the response the endpoint would return) together with an explicit
log of the requests that were posted, and Python exceptions become an
`Except PyError _` result.
-/

/-- Python's `int(x)` on a real number truncates toward zero. -/
def pyInt (q : ℚ) : ℤ := if 0 ≤ q then ⌊q⌋ else ⌈q⌉

/-- Embeds the frozen dataclass `TokenDetails` (src/stitch/__init__.py:20-27). -/
structure TokenDetails where
  id_token : String
  access_token : String
  expires_at_seconds_from_epoch : ℚ
  token_type : String
  refresh_token : String
  scope : String
deriving DecidableEq, Repr

/-- The JSON object exchanged with the token endpoint: keys
`id_token, access_token, expires_in, token_type, refresh_token, scope`.
This is the parsed form of the body handled by `TokenDetails.from_json`
and produced by `TokenDetails.to_json`. -/
structure TokenJson where
  id_token : String
  access_token : String
  expires_in : ℚ
  token_type : String
  refresh_token : String
  scope : String
deriving DecidableEq, Repr

/-- Embeds `TokenDetails.from_json` (lines 29-40): `expires_at` is
`time.time() + expires_in`; the current time is the explicit `now`. -/
def TokenDetails.from_json (now : ℚ) (j : TokenJson) : TokenDetails :=
  { id_token := j.id_token
    access_token := j.access_token
    expires_at_seconds_from_epoch := now + j.expires_in
    token_type := j.token_type
    refresh_token := j.refresh_token
    scope := j.scope }

/-- Embeds `TokenDetails.to_json` (lines 52-65): `expires_in` is
`int(expires_at - time.time())`, clamped to 0 when negative. -/
def TokenDetails.to_json (now : ℚ) (td : TokenDetails) : TokenJson :=
  let expires_in : ℤ := pyInt (td.expires_at_seconds_from_epoch - now)
  let expires_in : ℤ := if expires_in < 0 then 0 else expires_in
  { id_token := td.id_token
    access_token := td.access_token
    expires_in := (expires_in : ℚ)
    token_type := td.token_type
    refresh_token := td.refresh_token
    scope := td.scope }

/-- Embeds `TokenDetails.is_expired` (lines 67-69). The comparison is
transcribed exactly as in the source: `expires_at_seconds_from_epoch > now`. -/
def TokenDetails.is_expired (td : TokenDetails) (now : ℚ) : Bool :=
  td.expires_at_seconds_from_epoch > now

/-- Users are the keys of the token store and of the pending-request dict.
The demo server uses integer user ids. -/
abbrev User := Nat

/-- One entry of `_pending_authorization_requests` (lines 146-149):
the dict `\x7b"code_verifier": ..., "state": ...\x7d` stored by
`initiate_authorization`. -/
structure PendingReq where
  code_verifier : String
  state : String
deriving DecidableEq, Repr

/-- A form-encoded POST body, as the `params` dicts passed to
`requests.post`: an association list of keys and values. -/
abbrev Request := List (String × String)

/-- Python exceptions that the embedded code can raise. -/
inductive PyError where
  /-- `KeyError` from a dict lookup (line 196). -/
  | keyError : User → PyError
  /-- `raise Exception(message)` (lines 252, 297). -/
  | exception : String → PyError
  /-- `IndexError` from `errors[0]` on an empty list (line 296). -/
  | indexError : PyError
deriving DecidableEq, Repr

/-- The mutable state of a `Stitch` object (lines 114-134): configuration,
the injected token store (`UserTokenStoreInterface`: `get_token_details`
returns `Optional[TokenDetails]`, `set_token_details` upserts), and the
in-memory `_pending_authorization_requests` dict. -/
structure Stitch where
  client_id : String
  client_secret : String
  redirect_uri : String
  token_store : User → Option TokenDetails
  pending : User → Option PendingReq

/-- Embeds `Stitch.complete_authorization` (lines 191-211).

Non-code inputs are made explicit: `assertion` is the fresh
`_encode_client_jwt()` string (built by the external `jwt` library),
`now` is `time.time()` at the call, and `endpoint` is the token
endpoint's behavior — the parsed JSON body it answers a posted form with.
The result carries the updated object state and the list of network
requests that were posted during the call.

Faithfully to the source, the `state` and `scope` parameters (default
`None`) are accepted but never read, the pending entry is looked up (a
missing entry is a `KeyError`) but never deleted, and the token exchange
is posted unconditionally. -/
def Stitch.complete_authorization (s : Stitch) (assertion : String) (now : ℚ)
    (endpoint : Request → TokenJson) (user : User) (authorization_code : String)
    (state : Option String := none) (scope : Option String := none) :
    Except PyError (Stitch × List Request) :=
  match s.pending user with
  | none => .error (.keyError user)
  | some req =>
    let code_verifier := req.code_verifier
    let params : Request :=
      [("grant_type", "authorization_code"),
       ("client_id", s.client_id),
       ("code", authorization_code),
       ("redirect_uri", s.redirect_uri),
       ("code_verifier", code_verifier),
       ("client_assertion_type", "urn:ietf:params:oauth:client-assertion-type:jwt-bearer"),
       ("client_assertion", assertion)]
    let td := TokenDetails.from_json now (endpoint params)
    .ok ({ s with token_store := fun u => if u = user then some td else s.token_store u },
         [params])

/-- Embeds `Stitch._get_token` (lines 228-247). Returns the token the
Python method returns (`none` embeds Python's `None`), the updated object
state, and the list of network requests posted. -/
def Stitch.get_token (s : Stitch) (assertion : String) (now : ℚ)
    (endpoint : Request → TokenJson) (user : User) :
    Option TokenDetails × Stitch × List Request :=
  match s.token_store user with
  | none => (none, s, [])
  | some td =>
    if td.is_expired now then
      let params : Request :=
        [("grant_type", "refresh_token"),
         ("client_id", s.client_id),
         ("refresh_token", td.refresh_token),
         ("client_assertion_type", "urn:ietf:params:oauth:client-assertion-type:jwt-bearer"),
         ("client_assertion", assertion)]
      let td' := TokenDetails.from_json now (endpoint params)
      (some td',
       { s with token_store := fun u => if u = user then some td' else s.token_store u },
       [params])
    else
      (some td, s, [])

/-- Embeds the dataclass `BankAccount` (lines 91-99). -/
structure BankAccount where
  name : String
  currency : String
  branch_code : ℤ
  bank_id : String
  account_type : String
  account_number : String
  supports_payment_initiation : Bool
deriving DecidableEq, Repr

/-- One raw record of the GraphQL response's `bankAccounts` array
(camel-cased keys, `branchCode` not yet converted to an integer). -/
structure BankAccountRaw where
  name : String
  currency : String
  branchCode : ℚ
  bankId : String
  accountType : String
  accountNumber : String
  supportsPaymentInitiation : Bool
deriving DecidableEq, Repr

/-- Embeds `BankAccount._from_api_res` (lines 101-111): field-for-field,
with `int(r["branchCode"])`. -/
def BankAccount.from_api_res (r : BankAccountRaw) : BankAccount :=
  { name := r.name
    currency := r.currency
    branch_code := pyInt r.branchCode
    bank_id := r.bankId
    account_type := r.accountType
    account_number := r.accountNumber
    supports_payment_initiation := r.supportsPaymentInitiation }

/-- One entry of the GraphQL response's top-level `errors` array. -/
structure ApiErrorEntry where
  message : String
deriving DecidableEq, Repr

/-- The provider GraphQL endpoint's answer, as `get_bank_accounts`
consumes it: HTTP status code, optional top-level `errors` array, and the
`data.user.bankAccounts` records. -/
structure GraphQLResponse where
  status_code : Nat
  errors : Option (List ApiErrorEntry)
  bankAccounts : List BankAccountRaw
deriving DecidableEq, Repr

/-- The error message built at lines 292-294: the base text, extended
with the HTTP status only when the status is not 200. -/
def stitch_err_message (status_code : Nat) : String :=
  if status_code ≠ 200 then
    "Error retrieving user's stitch data" ++ ". Status " ++ toString status_code
  else
    "Error retrieving user's stitch data"

/-- Embeds `Stitch.get_bank_accounts` (lines 249-297). `apiResponse` is
the behavior of the provider GraphQL endpoint (the oracle for the
`requests.post` at line 280); `endpoint` is the token endpoint used by
the inner `_get_token` call, whose posted requests are also returned.
The error message is built by `stitch_err_message`, extended at line 296
with the first entry of a present `errors` array (an `IndexError` when
that array is empty). -/
def Stitch.get_bank_accounts (s : Stitch) (assertion : String) (now : ℚ)
    (endpoint : Request → TokenJson) (user : User)
    (apiResponse : GraphQLResponse) :
    Except PyError (List BankAccount × Stitch × List Request) :=
  match s.get_token assertion now endpoint user with
  | (none, _, _) => .error (.exception "User not authorized or error retrieving token")
  | (some _td, s2, calls) =>
    if apiResponse.status_code = 200 ∧ apiResponse.errors = none then
      .ok (apiResponse.bankAccounts.map BankAccount.from_api_res, s2, calls)
    else
      match apiResponse.errors with
      | none => .error (.exception (stitch_err_message apiResponse.status_code))
      | some [] => .error .indexError
      | some (e :: _) =>
        .error (.exception (stitch_err_message apiResponse.status_code ++ ". " ++ e.message))

/-- The standard base64 alphabet used by Python's `base64.b64encode`. -/
def stdAlpha : List Char :=
  "ABCDEFGHIJKLMNOPQRSTUVWXYZabcdefghijklmnopqrstuvwxyz0123456789+/".toList

/-- The URL-safe base64 alphabet used by Python's `base64.urlsafe_b64encode`. -/
def urlAlpha : List Char :=
  "ABCDEFGHIJKLMNOPQRSTUVWXYZabcdefghijklmnopqrstuvwxyz0123456789-_".toList

/-- The four output characters of one full 3-byte base64 group. -/
def b64group3 (alpha : List Char) (b1 b2 b3 : Nat) : List Char :=
  [alpha.getD (b1 / 4) ' ',
   alpha.getD (b1 % 4 * 16 + b2 / 16) ' ',
   alpha.getD (b2 % 16 * 4 + b3 / 64) ' ',
   alpha.getD (b3 % 64) ' ']

/-- RFC 4648 base64 encoding with `=` padding over a given alphabet;
`b64encodeWith stdAlpha` models `base64.b64encode`, and
`b64encodeWith urlAlpha` models `base64.urlsafe_b64encode`. -/
def b64encodeWith (alpha : List Char) : List Nat → List Char
  | [] => []
  | [b1] => [alpha.getD (b1 / 4) ' ', alpha.getD (b1 % 4 * 16) ' ', '=', '=']
  | [b1, b2] => [alpha.getD (b1 / 4) ' ', alpha.getD (b1 % 4 * 16 + b2 / 16) ' ',
                 alpha.getD (b2 % 16 * 4) ' ', '=']
  | b1 :: b2 :: b3 :: rest => b64group3 alpha b1 b2 b3 ++ b64encodeWith alpha rest

/-- Base64 encoding over a given alphabet with no padding characters at
all — the common normal form both sides of the C10 equivalence reduce to. -/
def b64noPadWith (alpha : List Char) : List Nat → List Char
  | [] => []
  | [b1] => [alpha.getD (b1 / 4) ' ', alpha.getD (b1 % 4 * 16) ' ']
  | [b1, b2] => [alpha.getD (b1 / 4) ' ', alpha.getD (b1 % 4 * 16 + b2 / 16) ' ',
                 alpha.getD (b2 % 16 * 4) ' ']
  | b1 :: b2 :: b3 :: rest => b64group3 alpha b1 b2 b3 ++ b64noPadWith alpha rest

/-- The character substitution applied by the two `re.sub` calls of lines
303-304: `+` to `-` and `/` to `_`. -/
def subPlusSlash (c : Char) : Char :=
  if c = '+' then '-' else if c = '/' then '_' else c

/-- Embeds the helper of lines 300-306: standard `base64.b64encode`, then
`re.sub` deleting every `=`, then `re.sub` of `+` to `-`, then `re.sub`
of `/` to `_`. -/
def encode_bytes_to_base64_str (bs : List Nat) : String :=
  let res := b64encodeWith stdAlpha bs
  let res := res.filter (fun c => ¬ (c = '='))
  let res := res.map (fun c => if c = '+' then '-' else c)
  let res := res.map (fun c => if c = '/' then '_' else c)
  String.mk res

/-- Removes trailing `=` padding from a base64 output. -/
def stripTrailingEq (l : List Char) : List Char :=
  (l.reverse.dropWhile (fun c => c = '=')).reverse

/-- The reference behavior of the C10 claim, following its words:
`base64.urlsafe_b64encode` with the trailing `=` padding stripped. -/
def urlsafe_b64encode_nopad (bs : List Nat) : String :=
  String.mk (stripTrailingEq (b64encodeWith urlAlpha bs))

/-- The UTF-8 byte values of a string; the strings hashed by the code are
ASCII base64 outputs, for which UTF-8 bytes are the character codes. -/
def strUtf8Bytes (s : String) : List Nat := s.toList.map Char.toNat

/-- Embeds `_gen_code_challenge_and_verifier` (lines 309-324). The two
external primitives are explicit inputs: `sha256` is `hashlib.sha256(...)
.digest()` and `random_bytes` the 32 bytes from `secrets.token_bytes`.
Returns `(challenge, verifier)` in source order. -/
def gen_code_challenge_and_verifier (sha256 : List Nat → List Nat)
    (random_bytes : List Nat) : String × String :=
  let verifier := encode_bytes_to_base64_str random_bytes
  let challenge_bs := sha256 (strUtf8Bytes verifier)
  let challenge := encode_bytes_to_base64_str challenge_bs
  (challenge, verifier)

/-- `"substring carried in a message"`: the error text `sub` occurs
contiguously inside `msg`. Used to state what an error message carries. -/
def carries (msg sub : String) : Prop := sub.toList <:+: msg.toList

instance (msg sub : String) : Decidable (carries msg sub) := by
  unfold carries
  infer_instance

/-! ### Concrete sample values used by witnesses and counterexamples -/

/-- A well-formed token endpoint response body. -/
def sampleJson : TokenJson :=
  { id_token := "idtok", access_token := "acctok", expires_in := 3600,
    token_type := "Bearer", refresh_token := "reftok",
    scope := "openid accounts offline_access" }

/-- A token endpoint that always answers with `sampleJson`. -/
def sampleEndpoint : Request → TokenJson := fun _ => sampleJson

/-- A token whose `expires_at` (0) is far in the past of `now = 100`. -/
def tdStale : TokenDetails :=
  { id_token := "idS", access_token := "acS", expires_at_seconds_from_epoch := 0,
    token_type := "Bearer", refresh_token := "refS", scope := "openid" }

/-- A token whose `expires_at` (200) is in the future of `now = 100`. -/
def tdFresh : TokenDetails :=
  { id_token := "idF", access_token := "acF", expires_at_seconds_from_epoch := 200,
    token_type := "Bearer", refresh_token := "refF", scope := "openid" }

/-- A client with user 1 holding a pending authorization request
(`state` `"STATE_A"`, verifier `"verif"`) and an empty token store. -/
def sampleStitch : Stitch :=
  { client_id := "cid", client_secret := "csec",
    redirect_uri := "https://example.com/return",
    token_store := fun _ => none,
    pending := fun u => if u = 1 then some ⟨"verif", "STATE_A"⟩ else none }

/-- The exact form body `complete_authorization` posts for `sampleStitch`,
user 1, code `"abc123"` and client assertion `"jwt"`. -/
def sampleAuthParams : Request :=
  [("grant_type", "authorization_code"),
   ("client_id", "cid"),
   ("code", "abc123"),
   ("redirect_uri", "https://example.com/return"),
   ("code_verifier", "verif"),
   ("client_assertion_type", "urn:ietf:params:oauth:client-assertion-type:jwt-bearer"),
   ("client_assertion", "jwt")]

/-- The state of `sampleStitch` after `complete_authorization` for user 1
at `now = 0` against `sampleEndpoint`. -/
def sampleStitchAfterAuth : Stitch :=
  { sampleStitch with
    token_store := fun u =>
      if u = 1 then some (TokenDetails.from_json 0 (sampleEndpoint sampleAuthParams))
      else sampleStitch.token_store u }

/-- A client whose store holds the long-expired `tdStale` for user 1. -/
def stitchWithStale : Stitch :=
  { client_id := "cid", client_secret := "csec",
    redirect_uri := "https://example.com/return",
    token_store := fun u => if u = 1 then some tdStale else none,
    pending := fun _ => none }

/-- A client whose store holds the still-valid `tdFresh` for user 1. -/
def stitchWithFresh : Stitch :=
  { client_id := "cid", client_secret := "csec",
    redirect_uri := "https://example.com/return",
    token_store := fun u => if u = 1 then some tdFresh else none,
    pending := fun _ => none }

/-- A client with an empty token store and no pending requests. -/
def stitchEmpty : Stitch :=
  { client_id := "cid", client_secret := "csec",
    redirect_uri := "https://example.com/return",
    token_store := fun _ => none,
    pending := fun _ => none }

/-- The exact refresh form body `_get_token` posts for `stitchWithFresh`
with client assertion `"jwt"`. -/
def sampleRefreshParams : Request :=
  [("grant_type", "refresh_token"),
   ("client_id", "cid"),
   ("refresh_token", "refF"),
   ("client_assertion_type", "urn:ietf:params:oauth:client-assertion-type:jwt-bearer"),
   ("client_assertion", "jwt")]

/-! ### Theorems -/

/-- Sanity: `pyInt` truncates toward zero on both sides. -/
theorem pyInt_sanity : pyInt (-2) = -2 ∧ pyInt (7/2) = 3 ∧ pyInt (-7/2) = -3 := by
  refine ⟨?_, ?_, ?_⟩ <;> rw [pyInt] <;> norm_num
  · rw [Int.ceil_eq_iff] <;> norm_num
  · rw [Int.ceil_eq_iff] <;> norm_num

/-- Sanity of the base64 model against reference values of Python's
`base64` module (`b64encode` of `bytes([251, 239])` is `"++8="`, of
`bytes(range(32))` the 43-character string below after the `re.sub`s). -/
theorem b64_sanity :
    encode_bytes_to_base64_str [0, 0, 0] = "AAAA"
    ∧ encode_bytes_to_base64_str [255] = "_w"
    ∧ encode_bytes_to_base64_str [251, 239] = "--8"
    ∧ urlsafe_b64encode_nopad [255] = "_w"
    ∧ encode_bytes_to_base64_str (List.range 32)
      = "AAECAwQFBgcICQoLDA0ODxAREhMUFRYXGBkaGxwdHh8" := by decide

/-- C1: the claim states `is_expired()` is true exactly when
`expires_at <= now`. The code (line 69) computes `expires_at > now`
instead — the comparison is inverted, as §9 of the spec itself flags.
At the failing input `expires_at = 0`, `now = 100` (token long past
expiry, so the claim demands `true`) the code returns `false`; at
`expires_at = 200`, `now = 100` (not yet expired, claim demands `false`)
it returns `true`. -/
theorem C1_is_expired_inverted :
    tdStale.is_expired 100 = false
    ∧ tdStale.expires_at_seconds_from_epoch ≤ 100
    ∧ tdFresh.is_expired 100 = true
    ∧ ¬ (tdFresh.expires_at_seconds_from_epoch ≤ 100) := by decide

/-- C7 (counterexample): for an already-expired token the claim fails.
Token with `expires_at = 0` serialized and deserialized at `now = 2`:
`to_json` clamps `expires_in` to 0, so `from_json` reconstitutes
`expires_at = 2`, which is 2 seconds — more than the claimed 1 second —
away from the original 0. -/
theorem C7_roundtrip_counterexample :
    ¬ (|(TokenDetails.from_json 2
          ((TokenDetails.mk "i" "a" 0 "t" "r" "s").to_json 2)).expires_at_seconds_from_epoch
        - (TokenDetails.mk "i" "a" 0 "t" "r" "s").expires_at_seconds_from_epoch| ≤ 1) := by
  have h : (TokenDetails.from_json 2
      ((TokenDetails.mk "i" "a" 0 "t" "r" "s").to_json 2)).expires_at_seconds_from_epoch
      = 2 := by
    have hc : ⌈(-2 : ℚ)⌉ = (-2 : ℤ) := by
      rw [show (-2 : ℚ) = ((-2 : ℤ) : ℚ) by norm_num]
      exact Int.ceil_intCast _
    norm_num [TokenDetails.from_json, TokenDetails.to_json, pyInt, hc]
  rw [h]
  norm_num

/-- C7 (amended): for every TokenDetails whose `expires_at` has not yet
passed at the serialization instant (`now ≤ expires_at`), `to_json`
followed by `from_json` at the same instant reproduces `id_token`,
`access_token`, `token_type`, `refresh_token` and `scope` exactly, and an
`expires_at` within 1 second of the original. (The original claim, over
*every* TokenDetails, fails for already-expired tokens because
`expires_in` is clamped to 0: see the counterexample.) -/
theorem C7_to_json_from_json_roundtrip (td : TokenDetails) (now : ℚ)
    (h : now ≤ td.expires_at_seconds_from_epoch) :
    (TokenDetails.from_json now (td.to_json now)).id_token = td.id_token
    ∧ (TokenDetails.from_json now (td.to_json now)).access_token = td.access_token
    ∧ (TokenDetails.from_json now (td.to_json now)).token_type = td.token_type
    ∧ (TokenDetails.from_json now (td.to_json now)).refresh_token = td.refresh_token
    ∧ (TokenDetails.from_json now (td.to_json now)).scope = td.scope
    ∧ |(TokenDetails.from_json now (td.to_json now)).expires_at_seconds_from_epoch
        - td.expires_at_seconds_from_epoch| ≤ 1 := by
  have hd : (0 : ℚ) ≤ td.expires_at_seconds_from_epoch - now := by linarith
  have h1 : pyInt (td.expires_at_seconds_from_epoch - now)
      = ⌊td.expires_at_seconds_from_epoch - now⌋ := by
    unfold pyInt
    exact if_pos hd
  have h2 : ¬ (⌊td.expires_at_seconds_from_epoch - now⌋ < 0) :=
    not_lt.mpr (Int.floor_nonneg.mpr hd)
  refine ⟨rfl, rfl, rfl, rfl, rfl, ?_⟩
  simp only [TokenDetails.from_json, TokenDetails.to_json, h1, if_neg h2]
  have hf1 := Int.floor_le (td.expires_at_seconds_from_epoch - now)
  have hf2 := Int.sub_one_lt_floor (td.expires_at_seconds_from_epoch - now)
  rw [abs_le]
  constructor <;> push_cast <;> linarith

/-- C7 witness: the amended roundtrip theorem applied to the concrete
token with `expires_at = 7/2` at instant `now = 1`. -/
theorem C7_to_json_from_json_roundtrip_witness :
    (1 : ℚ) ≤ (7/2 : ℚ)
    ∧ ((TokenDetails.from_json 1
          ((TokenDetails.mk "i" "a" (7/2) "t" "r" "s").to_json 1)).id_token = "i"
       ∧ (TokenDetails.from_json 1
          ((TokenDetails.mk "i" "a" (7/2) "t" "r" "s").to_json 1)).access_token = "a"
       ∧ (TokenDetails.from_json 1
          ((TokenDetails.mk "i" "a" (7/2) "t" "r" "s").to_json 1)).token_type = "t"
       ∧ (TokenDetails.from_json 1
          ((TokenDetails.mk "i" "a" (7/2) "t" "r" "s").to_json 1)).refresh_token = "r"
       ∧ (TokenDetails.from_json 1
          ((TokenDetails.mk "i" "a" (7/2) "t" "r" "s").to_json 1)).scope = "s"
       ∧ |(TokenDetails.from_json 1
            ((TokenDetails.mk "i" "a" (7/2) "t" "r" "s").to_json 1)).expires_at_seconds_from_epoch
           - (7/2 : ℚ)| ≤ 1) :=
  ⟨by norm_num,
   C7_to_json_from_json_roundtrip (TokenDetails.mk "i" "a" (7/2) "t" "r" "s") 1 (by norm_num)⟩

/-- C2: the claim states a mismatched `returned_state` fails with
AntiCsrfError, with no token-endpoint call and an unchanged token store.
The code (lines 191-211) never reads the `state` parameter: at the
failing input — stored pending `state` `"STATE_A"`, returned state
`"STATE_B"` — the call nevertheless succeeds, posts exactly one exchange
request to the token endpoint, and writes the exchanged token into the
store. (§9 of the spec flags this omitted check as a defect of the
code.) -/
theorem C2_no_anti_csrf_check :
    (sampleStitch.pending 1).map PendingReq.state = some "STATE_A"
    ∧ "STATE_B" ≠ "STATE_A"
    ∧ sampleStitch.complete_authorization "jwt" 0 sampleEndpoint 1 "abc123"
        (some "STATE_B") none
      = .ok (sampleStitchAfterAuth, [sampleAuthParams])
    ∧ sampleStitch.token_store 1 = none
    ∧ sampleStitchAfterAuth.token_store 1
      = some (TokenDetails.from_json 0 sampleJson) :=
  ⟨rfl, by decide, rfl, rfl, rfl⟩

/-- C3 (counterexample): the claim states the pending entry has been
removed once `complete_authorization` returns. At the concrete input
below the call returns successfully, yet the pending entry for user 1 is
still present (the code never deletes it), so a second completion attempt
finds the same pending request rather than none. -/
theorem C3_pending_survives_counterexample :
    sampleStitch.complete_authorization "jwt" 0 sampleEndpoint 1 "abc123" none none
      = .ok (sampleStitchAfterAuth, [sampleAuthParams])
    ∧ sampleStitchAfterAuth.pending 1 = some ⟨"verif", "STATE_A"⟩
    ∧ sampleStitchAfterAuth.pending 1 ≠ none :=
  ⟨rfl, rfl, by decide⟩

/-- C3 (amended): whenever `complete_authorization` returns, the in-flight
request map is exactly what it was before the call — the pending entry
for the user is NOT removed, so a second completion attempt for the same
user finds the same pending request (and, a fortiori, does not fail for
lack of one). -/
theorem C3_pending_not_cleared (s : Stitch) (assertion : String) (now : ℚ)
    (endpoint : Request → TokenJson) (user : User) (authorization_code : String)
    (st sc : Option String) (s2 : Stitch) (calls : List Request)
    (h : s.complete_authorization assertion now endpoint user authorization_code st sc
      = .ok (s2, calls)) :
    s2.pending = s.pending := by
  unfold Stitch.complete_authorization at h
  cases hp : s.pending user with
  | none =>
    rw [hp] at h
    exact absurd h (by simp)
  | some req =>
    rw [hp] at h
    simp only [Except.ok.injEq, Prod.mk.injEq] at h
    rw [← h.1]

/-- C3 witness: the amended theorem applied to the concrete successful
completion of `sampleStitch` for user 1. -/
theorem C3_pending_not_cleared_witness :
    (sampleStitch.complete_authorization "jwt" 0 sampleEndpoint 1 "abc123" none none
      = .ok (sampleStitchAfterAuth, [sampleAuthParams]))
    ∧ sampleStitchAfterAuth.pending = sampleStitch.pending :=
  ⟨rfl, C3_pending_not_cleared sampleStitch "jwt" 0 sampleEndpoint 1 "abc123"
    none none sampleStitchAfterAuth [sampleAuthParams] rfl⟩

/-- C9: two `complete_authorization` calls that agree on everything except
the `state` and `scope` arguments are literally the same computation: the
code never reads either argument, so the issued token-endpoint request,
the stored TokenDetails and the overall outcome are identical. -/
theorem C9_outcome_ignores_state_and_scope (s : Stitch) (assertion : String)
    (now : ℚ) (endpoint : Request → TokenJson) (user : User)
    (authorization_code : String) (st st2 sc sc2 : Option String) :
    s.complete_authorization assertion now endpoint user authorization_code st sc
      = s.complete_authorization assertion now endpoint user authorization_code st2 sc2 :=
  rfl

/-- C4: the claim states a token with `expires_at` in the past triggers
exactly one refresh, and one in the future triggers none. Because
`is_expired` is inverted (see C1), the code does precisely the opposite.
At `now = 100`: for stored `tdStale` (`expires_at = 0`, long past) the
code posts no request at all and returns the stale token unchanged, and
for stored `tdFresh` (`expires_at = 200`, in the future) it posts one
refresh request and replaces the stored token. -/
theorem C4_refresh_on_wrong_side :
    tdStale.expires_at_seconds_from_epoch < 100
    ∧ stitchWithStale.get_token "jwt" 100 sampleEndpoint 1
      = (some tdStale, stitchWithStale, [])
    ∧ 100 < tdFresh.expires_at_seconds_from_epoch
    ∧ (stitchWithFresh.get_token "jwt" 100 sampleEndpoint 1).2.2 = [sampleRefreshParams]
    ∧ (stitchWithFresh.get_token "jwt" 100 sampleEndpoint 1).1
      = some (TokenDetails.from_json 100 sampleJson)
    ∧ (stitchWithFresh.get_token "jwt" 100 sampleEndpoint 1).2.1.token_store 1
      = some (TokenDetails.from_json 100 sampleJson) :=
  ⟨by decide, rfl, by decide, rfl, rfl, rfl⟩

/-- C5 (counterexample): the claim states `_get_token` fails with
NotAuthorizedError when the store holds nothing for the user. At the
concrete empty-store input the code raises nothing: it returns normally
with Python's `None` (the `return` at line 232), posting no request. -/
theorem C5_returns_none_counterexample :
    stitchEmpty.get_token "jwt" 0 sampleEndpoint 1 = (none, stitchEmpty, []) :=
  rfl

/-- C5 (amended): for every user for whom the TokenStore holds no
TokenDetails, `_get_token` does not raise: it returns `None` (posting no
network request and leaving the state untouched); the not-authorized
failure is only raised by its caller `get_bank_accounts`, as a generic
`Exception("User not authorized or error retrieving token")`. -/
theorem C5_absent_token_returns_none (s : Stitch) (assertion : String) (now : ℚ)
    (endpoint : Request → TokenJson) (user : User) (apiResponse : GraphQLResponse)
    (h : s.token_store user = none) :
    s.get_token assertion now endpoint user = (none, s, [])
    ∧ s.get_bank_accounts assertion now endpoint user apiResponse
      = .error (.exception "User not authorized or error retrieving token") := by
  have hg : s.get_token assertion now endpoint user = (none, s, []) := by
    unfold Stitch.get_token
    rw [h]
  refine ⟨hg, ?_⟩
  unfold Stitch.get_bank_accounts
  rw [hg]

/-- C5 witness: the amended theorem applied to the empty-store client. -/
theorem C5_absent_token_returns_none_witness :
    stitchEmpty.token_store 1 = none
    ∧ (stitchEmpty.get_token "jwt" 0 sampleEndpoint 1 = (none, stitchEmpty, [])
       ∧ stitchEmpty.get_bank_accounts "jwt" 0 sampleEndpoint 1 ⟨200, none, []⟩
         = .error (.exception "User not authorized or error retrieving token")) :=
  ⟨rfl, C5_absent_token_returns_none stitchEmpty "jwt" 0 sampleEndpoint 1 ⟨200, none, []⟩ rfl⟩

/-- An appended string is carried (as a contiguous substring) by the
concatenation. -/
theorem carries_suffix (a b : String) : carries (a ++ b) b := by
  unfold carries
  refine ⟨a.toList, [], ?_⟩
  simp [String.toList, String.data_append]

/-- A middle component is carried by the concatenation. -/
theorem carries_mid (x y z : String) : carries (x ++ y ++ z) y := by
  unfold carries
  refine ⟨x.toList, z.toList, ?_⟩
  simp [String.toList, String.data_append]

/-- When the store holds a token for the user, `_get_token` returns a
token (whether or not it goes through the refresh branch). -/
theorem get_token_of_stored (s : Stitch) (assertion : String) (now : ℚ)
    (endpoint : Request → TokenJson) (user : User) (td : TokenDetails)
    (h : s.token_store user = some td) :
    ∃ td2 s2 calls, s.get_token assertion now endpoint user = (some td2, s2, calls) := by
  unfold Stitch.get_token
  rw [h]
  dsimp only
  split
  · exact ⟨_, _, _, rfl⟩
  · exact ⟨_, _, _, rfl⟩

/-- C8 (amended): for every GraphQL response with a non-200 HTTP status
or a populated `errors` array (the `errors` field, when present, being
non-empty), `get_bank_accounts` fails; the raised error's message carries
the HTTP status whenever the status is non-200, and the first reported
error message whenever one is present; no list of bank accounts is
returned. (The original claim, which asks for the status unconditionally,
fails for a 200 response with a populated `errors` array: see the
counterexample.) -/
theorem C8_api_error_carries (s : Stitch) (assertion : String) (now : ℚ)
    (endpoint : Request → TokenJson) (user : User) (td : TokenDetails)
    (resp : GraphQLResponse)
    (hstore : s.token_store user = some td)
    (hfail : resp.status_code ≠ 200 ∨ resp.errors ≠ none)
    (hne : resp.errors ≠ some []) :
    ∃ msg : String,
      s.get_bank_accounts assertion now endpoint user resp = .error (.exception msg)
      ∧ (resp.status_code ≠ 200 → carries msg (toString resp.status_code))
      ∧ (∀ e es, resp.errors = some (e :: es) → carries msg e.message) := by
  obtain ⟨td2, s2, calls, heq⟩ :=
    get_token_of_stored s assertion now endpoint user td hstore
  have hcond : ¬ (resp.status_code = 200 ∧ resp.errors = none) := by
    rcases hfail with h1 | h2
    · exact fun hc => h1 hc.1
    · exact fun hc => h2 hc.2
  unfold Stitch.get_bank_accounts
  rw [heq]
  dsimp only
  rw [if_neg hcond]
  rcases herr : resp.errors with _ | el
  · have h200 : resp.status_code ≠ 200 := by
      rcases hfail with h1 | h2
      · exact h1
      · exact absurd herr h2
    refine ⟨stitch_err_message resp.status_code, rfl, fun _ => ?_, fun e es hEq => ?_⟩
    · unfold stitch_err_message
      rw [if_pos h200]
      exact carries_suffix _ _
    · exact absurd hEq (by simp)
  · rcases el with _ | ⟨e, es⟩
    · exact absurd herr hne
    · refine ⟨stitch_err_message resp.status_code ++ ". " ++ e.message, rfl,
        fun h200 => ?_, fun e2 es2 hEq => ?_⟩
      · unfold stitch_err_message
        rw [if_pos h200]
        unfold carries
        refine ⟨("Error retrieving user's stitch data" ++ ". Status ").toList,
          (". " ++ e.message).toList, ?_⟩
        simp [String.toList, String.data_append]
      · have he : e = e2 := by
          simp only [Option.some.injEq, List.cons.injEq] at hEq
          exact hEq.1
        rw [← he]
        exact carries_suffix _ _

/-- C8 (counterexample): the spec scenario with HTTP status 200 but a
populated `errors` array. The code raises an error whose message carries
the first error message but not the HTTP status (the `Status` fragment is
appended only when the status differs from 200), so the claim's
"ApiError carrying the HTTP status" fails at this input. -/
theorem C8_status_not_carried_counterexample :
    stitchWithStale.get_bank_accounts "jwt" 100 sampleEndpoint 1
        ⟨200, some [⟨"boom"⟩], []⟩
      = .error (.exception "Error retrieving user's stitch data. boom")
    ∧ carries "Error retrieving user's stitch data. boom" "boom"
    ∧ ¬ carries "Error retrieving user's stitch data. boom" "200" :=
  ⟨rfl, by decide, by decide⟩

/-- C8 witness: the amended theorem applied to the spec's own scenario —
HTTP 401 with `errors = [\x7b"message": "invalid token"\x7d]`. -/
theorem C8_api_error_carries_witness :
    stitchWithStale.token_store 1 = some tdStale
    ∧ ((401 : Nat) ≠ 200 ∨
        (some [(⟨"invalid token"⟩ : ApiErrorEntry)] : Option (List ApiErrorEntry)) ≠ none)
    ∧ (some [(⟨"invalid token"⟩ : ApiErrorEntry)] : Option (List ApiErrorEntry)) ≠ some []
    ∧ ∃ msg : String,
        stitchWithStale.get_bank_accounts "jwt" 100 sampleEndpoint 1
            ⟨401, some [⟨"invalid token"⟩], []⟩
          = .error (.exception msg)
        ∧ ((401 : Nat) ≠ 200 → carries msg (toString (401 : Nat)))
        ∧ (∀ e es, (some [(⟨"invalid token"⟩ : ApiErrorEntry)] : Option (List ApiErrorEntry))
              = some (e :: es) → carries msg e.message) :=
  ⟨rfl, by decide, by decide,
   C8_api_error_carries stitchWithStale "jwt" 100 sampleEndpoint 1 tdStale
     ⟨401, some [⟨"invalid token"⟩], []⟩ rfl (by decide) (by decide)⟩

/-- C6: for every behavior of the SHA-256 primitive and every random byte
string, the `challenge` returned by the PKCE pair generator equals the
URL-safe unpadded base64 encoding (the `re.sub`-based
`_encode_bytes_to_base64_str`) of the SHA-256 digest of the returned
`verifier`'s UTF-8 bytes — re-deriving the challenge from the verifier
reproduces it. -/
theorem C6_challenge_rederivable (sha256 : List Nat → List Nat)
    (random_bytes : List Nat) :
    (gen_code_challenge_and_verifier sha256 random_bytes).1
      = encode_bytes_to_base64_str
          (sha256 (strUtf8Bytes (gen_code_challenge_and_verifier sha256 random_bytes).2)) :=
  rfl

/-- Structural induction along the 3-byte chunking shared by the base64
encoders. -/
theorem chunk_induction {motive : List Nat → Prop} (h0 : motive [])
    (h1 : ∀ b, motive [b]) (h2 : ∀ b c, motive [b, c])
    (h3 : ∀ b c d rest, motive rest → motive (b :: c :: d :: rest)) :
    ∀ bs, motive bs
  | [] => h0
  | [b] => h1 b
  | [b, c] => h2 b c
  | b :: c :: d :: rest => h3 b c d rest (chunk_induction h0 h1 h2 h3 rest)

/-- No lookup into the standard alphabet (nor the out-of-range default)
is the padding character. -/
theorem stdAlpha_getD_ne (i : Nat) : stdAlpha.getD i ' ' ≠ '=' := by
  by_cases h : i < 64
  · exact (by decide : ∀ j < 64, stdAlpha.getD j ' ' ≠ '=') i h
  · rw [List.getD_eq_default]
    · decide
    · rw [show stdAlpha.length = 64 from by decide]
      omega

/-- No lookup into the URL-safe alphabet (nor the default) is `=`, `+`
or `/`. -/
theorem urlAlpha_getD_ne (i : Nat) :
    urlAlpha.getD i ' ' ≠ '=' ∧ urlAlpha.getD i ' ' ≠ '+' ∧ urlAlpha.getD i ' ' ≠ '/' := by
  by_cases h : i < 64
  · exact (by decide : ∀ j < 64, urlAlpha.getD j ' ' ≠ '='
      ∧ urlAlpha.getD j ' ' ≠ '+' ∧ urlAlpha.getD j ' ' ≠ '/') i h
  · rw [List.getD_eq_default]
    · decide
    · rw [show urlAlpha.length = 64 from by decide]
      omega

/-- The URL-safe alphabet facts, restated in the `getElem?` normal form
that `simp` produces. -/
theorem urlAlpha_getElem_ne (i : Nat) :
    urlAlpha[i]?.getD ' ' ≠ '=' ∧ urlAlpha[i]?.getD ' ' ≠ '+'
      ∧ urlAlpha[i]?.getD ' ' ≠ '/' := by
  have h := urlAlpha_getD_ne i
  simpa [List.getD_eq_getElem?_getD] using h

/-- Substituting `+` by `-` and `/` by `_` turns every standard-alphabet
lookup into the URL-safe-alphabet lookup at the same index. -/
theorem subst_std_eq_url (i : Nat) :
    (if (if stdAlpha.getD i ' ' = '+' then '-' else stdAlpha.getD i ' ') = '/' then '_'
     else if stdAlpha.getD i ' ' = '+' then '-' else stdAlpha.getD i ' ')
      = urlAlpha.getD i ' ' := by
  by_cases h : i < 64
  · exact (by decide : ∀ j < 64,
      (if (if stdAlpha.getD j ' ' = '+' then '-' else stdAlpha.getD j ' ') = '/' then '_'
       else if stdAlpha.getD j ' ' = '+' then '-' else stdAlpha.getD j ' ')
        = urlAlpha.getD j ' ') i h
  · rw [List.getD_eq_default, List.getD_eq_default]
    · decide
    · rw [show urlAlpha.length = 64 from by decide]
      omega
    · rw [show stdAlpha.length = 64 from by decide]
      omega

/-- The `=`-deleting filter keeps a non-`=` head. -/
theorem filter_keep (c : Char) (hc : c ≠ '=') (l : List Char) :
    List.filter (fun x => ¬ (x = '=')) (c :: l)
      = c :: List.filter (fun x => ¬ (x = '=')) l := by
  simp [List.filter_cons, hc]

/-- The `=`-deleting filter drops an `=` head. -/
theorem filter_drop (l : List Char) :
    List.filter (fun x => ¬ (x = '=')) ('=' :: l)
      = List.filter (fun x => ¬ (x = '=')) l := by
  simp [List.filter_cons]

/-- Filtering and substituting a full standard-alphabet group yields the
URL-safe group. -/
theorem chain_group3 (b c d : Nat) :
    (((b64group3 stdAlpha b c d).filter (fun x => ¬ (x = '='))).map
        (fun x => if x = '+' then '-' else x)).map (fun x => if x = '/' then '_' else x)
      = b64group3 urlAlpha b c d := by
  unfold b64group3
  rw [filter_keep _ (stdAlpha_getD_ne _), filter_keep _ (stdAlpha_getD_ne _),
      filter_keep _ (stdAlpha_getD_ne _), filter_keep _ (stdAlpha_getD_ne _)]
  simp only [List.filter_nil, List.map_cons, List.map_nil]
  rw [subst_std_eq_url, subst_std_eq_url, subst_std_eq_url, subst_std_eq_url]

/-- Deleting every `=` from the padded standard encoding and then
substituting `+`/`/` is the unpadded URL-safe encoding. -/
theorem encode_chain_eq_noPad : ∀ bs : List Nat,
    (((b64encodeWith stdAlpha bs).filter (fun x => ¬ (x = '='))).map
        (fun x => if x = '+' then '-' else x)).map (fun x => if x = '/' then '_' else x)
      = b64noPadWith urlAlpha bs := by
  intro bs
  induction bs using chunk_induction with
  | h0 => rfl
  | h1 b =>
    rw [show b64encodeWith stdAlpha [b]
        = [stdAlpha.getD (b / 4) ' ', stdAlpha.getD (b % 4 * 16) ' ', '=', '='] from rfl]
    rw [filter_keep _ (stdAlpha_getD_ne _), filter_keep _ (stdAlpha_getD_ne _),
        filter_drop, filter_drop]
    simp only [List.filter_nil, List.map_cons, List.map_nil, b64noPadWith]
    rw [subst_std_eq_url, subst_std_eq_url]
  | h2 b c =>
    rw [show b64encodeWith stdAlpha [b, c]
        = [stdAlpha.getD (b / 4) ' ', stdAlpha.getD (b % 4 * 16 + c / 16) ' ',
           stdAlpha.getD (c % 16 * 4) ' ', '='] from rfl]
    rw [filter_keep _ (stdAlpha_getD_ne _), filter_keep _ (stdAlpha_getD_ne _),
        filter_keep _ (stdAlpha_getD_ne _), filter_drop]
    simp only [List.filter_nil, List.map_cons, List.map_nil, b64noPadWith]
    rw [subst_std_eq_url, subst_std_eq_url, subst_std_eq_url]
  | h3 b c d rest ih =>
    rw [show b64encodeWith stdAlpha (b :: c :: d :: rest)
        = b64group3 stdAlpha b c d ++ b64encodeWith stdAlpha rest from rfl]
    rw [List.filter_append, List.map_append, List.map_append, chain_group3, ih]
    rfl

/-- The unpadded encoding of a non-empty input is non-empty. -/
theorem noPad_ne_nil (alpha : List Char) :
    ∀ bs : List Nat, bs ≠ [] → b64noPadWith alpha bs ≠ [] := by
  intro bs hbs
  rcases bs with _ | ⟨b, _ | ⟨c, _ | ⟨d, rest⟩⟩⟩
  · exact absurd rfl hbs
  · simp [b64noPadWith]
  · simp [b64noPadWith]
  · simp [b64noPadWith, b64group3]

/-- Dropping the trailing `=` run (as seen from the reversed list) of the
padded URL-safe encoding leaves the reversed unpadded encoding. -/
theorem encode_rev_dropWhile : ∀ bs : List Nat,
    (b64encodeWith urlAlpha bs).reverse.dropWhile (fun c => c = '=')
      = (b64noPadWith urlAlpha bs).reverse := by
  intro bs
  induction bs using chunk_induction with
  | h0 => rfl
  | h1 b =>
    have hA := (urlAlpha_getElem_ne (b / 4)).1
    have hB := (urlAlpha_getElem_ne (b % 4 * 16)).1
    simp [b64encodeWith, b64noPadWith, List.dropWhile_cons, hA, hB]
  | h2 b c =>
    have hA := (urlAlpha_getElem_ne (b / 4)).1
    have hB := (urlAlpha_getElem_ne (b % 4 * 16 + c / 16)).1
    have hC := (urlAlpha_getElem_ne (c % 16 * 4)).1
    simp [b64encodeWith, b64noPadWith, List.dropWhile_cons, hA, hB, hC]
  | h3 b c d rest ih =>
    rcases Decidable.em (rest = []) with hr | hr
    · subst hr
      have hD := (urlAlpha_getElem_ne (d % 64)).1
      simp [b64encodeWith, b64noPadWith, b64group3, List.dropWhile_cons, hD]
    · have hnp : b64noPadWith urlAlpha rest ≠ [] := noPad_ne_nil urlAlpha rest hr
      rw [show b64encodeWith urlAlpha (b :: c :: d :: rest)
            = b64group3 urlAlpha b c d ++ b64encodeWith urlAlpha rest from rfl,
          show b64noPadWith urlAlpha (b :: c :: d :: rest)
            = b64group3 urlAlpha b c d ++ b64noPadWith urlAlpha rest from rfl]
      rw [List.reverse_append, List.reverse_append, List.dropWhile_append, ih]
      have hne : ((b64noPadWith urlAlpha rest).reverse).isEmpty = false := by
        simp [hnp]
      rw [hne]
      simp

/-- Length of the unpadded encoding of an input of length `3k + 2`. -/
theorem noPad_length_two_mod (alpha : List Char) :
    ∀ (k : Nat) (bs : List Nat), bs.length = 3 * k + 2 →
      (b64noPadWith alpha bs).length = 4 * k + 3 := by
  intro k
  induction k with
  | zero =>
    intro bs h
    rcases bs with _ | ⟨b, _ | ⟨c, _ | ⟨d, rest⟩⟩⟩
    · simp at h
    · simp at h
    · simp [b64noPadWith]
    · simp at h
  | succ n ih =>
    intro bs h
    rcases bs with _ | ⟨b, _ | ⟨c, _ | ⟨d, rest⟩⟩⟩
    · simp at h
    · simp at h
    · simp at h
    · have hr : rest.length = 3 * n + 2 := by
        simp at h
        omega
      simp [b64noPadWith, b64group3, ih rest hr]
      omega

/-- Every character of the unpadded URL-safe encoding avoids `=`, `+`
and `/`. -/
theorem noPad_chars_ok : ∀ bs : List Nat, ∀ x ∈ b64noPadWith urlAlpha bs,
    x ≠ '=' ∧ x ≠ '+' ∧ x ≠ '/' := by
  intro bs
  induction bs using chunk_induction with
  | h0 =>
    intro x hx
    simp [b64noPadWith] at hx
  | h1 b =>
    intro x hx
    simp [b64noPadWith] at hx
    rcases hx with rfl | rfl
    · exact urlAlpha_getElem_ne _
    · exact urlAlpha_getElem_ne _
  | h2 b c =>
    intro x hx
    simp [b64noPadWith] at hx
    rcases hx with rfl | rfl | rfl
    · exact urlAlpha_getElem_ne _
    · exact urlAlpha_getElem_ne _
    · exact urlAlpha_getElem_ne _
  | h3 b c d rest ih =>
    intro x hx
    rw [show b64noPadWith urlAlpha (b :: c :: d :: rest)
          = b64group3 urlAlpha b c d ++ b64noPadWith urlAlpha rest from rfl] at hx
    rcases List.mem_append.mp hx with hg | hrest
    · simp [b64group3] at hg
      rcases hg with rfl | rfl | rfl | rfl
      · exact urlAlpha_getElem_ne _
      · exact urlAlpha_getElem_ne _
      · exact urlAlpha_getElem_ne _
      · exact urlAlpha_getElem_ne _
    · exact ih x hrest

/-- The code's encoder, in terms of the common unpadded normal form. -/
theorem encode_eq_mk_noPad (bs : List Nat) :
    encode_bytes_to_base64_str bs = String.mk (b64noPadWith urlAlpha bs) := by
  show String.mk ((((b64encodeWith stdAlpha bs).filter (fun x => ¬ (x = '='))).map
      (fun x => if x = '+' then '-' else x)).map (fun x => if x = '/' then '_' else x)) = _
  rw [encode_chain_eq_noPad]

/-- The spec's reference encoder, in terms of the same normal form. -/
theorem urlsafe_eq_mk_noPad (bs : List Nat) :
    urlsafe_b64encode_nopad bs = String.mk (b64noPadWith urlAlpha bs) := by
  unfold urlsafe_b64encode_nopad stripTrailingEq
  rw [encode_rev_dropWhile, List.reverse_reverse]

/-- C10: for every byte string, the `re.sub`-based encoder of lines
300-306 returns exactly `base64.urlsafe_b64encode` with the trailing `=`
padding stripped; its output never contains `=`, `+` or `/`; and for a
32-byte input the output is exactly 43 characters long. -/
theorem C10_encoder_refines_urlsafe_nopad (bs : List Nat) :
    encode_bytes_to_base64_str bs = urlsafe_b64encode_nopad bs
    ∧ (∀ x ∈ (encode_bytes_to_base64_str bs).toList, x ≠ '=' ∧ x ≠ '+' ∧ x ≠ '/')
    ∧ (bs.length = 32 → (encode_bytes_to_base64_str bs).length = 43) := by
  refine ⟨?_, ?_, ?_⟩
  · rw [encode_eq_mk_noPad, urlsafe_eq_mk_noPad]
  · rw [encode_eq_mk_noPad]
    intro x hx
    exact noPad_chars_ok bs x hx
  · intro h32
    rw [encode_eq_mk_noPad]
    show (b64noPadWith urlAlpha bs).length = 43
    have h := noPad_length_two_mod urlAlpha 10 bs (by omega)
    omega

/-- C10 witness: the refinement theorem instantiated at the concrete
32-byte input `List.range 32`, discharging the length hypothesis. -/
theorem C10_encoder_refines_urlsafe_nopad_witness :
    (List.range 32).length = 32
    ∧ (encode_bytes_to_base64_str (List.range 32)).length = 43 :=
  ⟨by decide, (C10_encoder_refines_urlsafe_nopad (List.range 32)).2.2 (by decide)⟩
